import Mathlib

/-!
Verification of the `mproject` Python module (`src/mproject/__init__.py`).

The definitions below are a shallow embedding of the logic of the module
together with the behaviour of the library calls it makes:

* `OwnerRepo` and its constructor validation (`__post_init__`, lines 82-90),
  `from_url` (lines 92-107), `from_path` (lines 109-114) and `url`
  (lines 116-158);
* the `furl` URL serialisation that `url` relies on (`furl(**args)` with
  `scheme`, optional `host`/`username` and a `path` segment list): segments
  are percent-quoted with the urllib always-safe characters plus the furl
  `SAFE_SEGMENT_CHARS`, the netloc is rendered as `scheme://[user@]host` and
  the path gains a leading slash exactly when a netloc is present, while a
  scheme with no netloc is rendered `scheme:path`;
* the `pathlib.PurePosixPath` operations used: parsing (split on `/`,
  dropping empty and `.` components, leading-slash root with the POSIX
  double-slash special case), `name`, `parent`, `with_suffix` and `str`;
* the requirement-list construction of `ProjectPy.__post_init__` (lines 493-503),
  the create-or-ensure dispatch of `EnvBuilder.__post_init__` (lines 232-237) and
  the `check_call` sequence of `ProjectPy.pip_install` (lines 508-523).

Python `sorted` is a stable sort by `<=`; on `String` the order is total and
antisymmetric, so any sort by `<=` produces the identical list and we use
insertion sort.  Python exceptions are modelled with `Except PyError`.
-/

/-- Python exceptions raised by the modelled code paths. -/
inductive PyError where
  | valueError (msg : String)
  | nameError (msg : String)
  | unboundLocalError (msg : String)
  | calledProcessError (cmd : List String) (returncode : Int)
  deriving DecidableEq

/-- True when an `Except` value is an error, i.e. the Python code raised. -/
def isErrB {α : Type} : Except PyError α → Bool
  | Except.error _ => true
  | Except.ok _ => false

/-- Substring containment, Python `needle in hay` on strings. -/
def strContains (hay needle : String) : Bool :=
  hay.data.tails.any (fun t => needle.data.isPrefixOf t)

/-- Whether `pre` is a prefix of `s`, Python `s.startswith(pre)` (the core
`String.startsWith` is defined by well-founded recursion and does not reduce,
so we use the structural list version). -/
def strStartsWith (s pre : String) : Bool :=
  pre.data.isPrefixOf s.data

/-- Split a character list on a separator character; contiguous separators
produce empty pieces, like Python `str.split(sep)`. -/
def splitChar (sep : Char) : List Char → List (List Char)
  | [] => [[]]
  | c :: cs =>
    match splitChar sep cs with
    | [] => [[]]
    | h :: t => if c == sep then [] :: h :: t else (c :: h) :: t

/-- Python `s.split(sep)` for a one-character separator. -/
def strSplitOnSep (s : String) (sep : Char) : List String :=
  (splitChar sep s.data).map String.mk

/-- Python `sep.join(pieces)`. -/
def joinSep (sep : String) : List String → String
  | [] => ""
  | [x] => x
  | x :: xs => x ++ sep ++ joinSep sep xs

/-- Python `s[:-n]`, dropping the last `n` characters. -/
def strDropRight (s : String) (n : Nat) : String :=
  String.mk (s.data.take (s.data.length - n))

/-- Hexadecimal digit (uppercase, as produced by `urllib.parse.quote`). -/
def hexDigitChar (n : Nat) : Char :=
  if n < 10 then Char.ofNat (48 + n) else Char.ofNat (55 + n)

/-- UTF-8 encoding of a single code point, as a list of byte values. -/
def utf8Bytes (c : Char) : List Nat :=
  let n := c.toNat
  if n < 128 then [n]
  else if n < 2048 then [192 + n / 64, 128 + n % 64]
  else if n < 65536 then [224 + n / 4096, 128 + (n / 64) % 64, 128 + n % 64]
  else [240 + n / 262144, 128 + (n / 4096) % 64, 128 + (n / 64) % 64, 128 + n % 64]

/-- Percent-encoding of one byte, `%XX` with uppercase hex. -/
def percentEncodeByte (b : Nat) : String :=
  String.mk ['%', hexDigitChar (b / 16 % 16), hexDigitChar (b % 16)]

/-- Characters `urllib.parse.quote` never encodes: ASCII alphanumerics and
`_.-~`. -/
def isAlwaysSafe (c : Char) : Bool :=
  c.isAlphanum || [Char.ofNat 95, Char.ofNat 46, Char.ofNat 45, Char.ofNat 126].contains c

/-- furl `Path.SAFE_SEGMENT_CHARS`, the extra characters left unencoded in a
path segment: colon, at-sign, dash, dot, underscore, tilde, bang, dollar,
ampersand, apostrophe, parentheses, star, plus, comma, semicolon and equals
(the always-safe ones are covered by
`isAlwaysSafe`). -/
def safeSegmentExtra : List Char :=
  [Char.ofNat 58, Char.ofNat 64, Char.ofNat 33, Char.ofNat 36, Char.ofNat 38,
   Char.ofNat 39, Char.ofNat 40, Char.ofNat 41, Char.ofNat 42, Char.ofNat 43,
   Char.ofNat 44, Char.ofNat 59, Char.ofNat 61]

/-- Safe characters for a furl path segment. -/
def isSafeSegmentChar (c : Char) : Bool :=
  isAlwaysSafe c || safeSegmentExtra.contains c

/-- Percent-quote one character under a safe-character predicate. -/
def pyQuoteChar (safe : Char → Bool) (c : Char) : String :=
  if safe c then String.mk [c]
  else String.join ((utf8Bytes c).map percentEncodeByte)

/-- `urllib.parse.quote` of a string under a safe-character predicate. -/
def pyQuote (safe : Char → Bool) (s : String) : String :=
  String.join (s.data.map (pyQuoteChar safe))

/-- The furl quoting of a single path segment on serialisation. -/
def quoteSegment : String → String := pyQuote isSafeSegmentChar

/-- The furl quoting of the userinfo part of the netloc (safe set empty). -/
def quoteUserinfo : String → String := pyQuote isAlwaysSafe

/-- Serialised URL of `furl(scheme=..., [username=...], [host=...],
path=<segment list>)`, as produced by `str(furl(**args))`:  each segment is
percent-quoted; with a host the result is `scheme://[user@]host/seg1/seg2`
(the path gains a leading slash when non-empty), without a host it is
`scheme:path`. -/
def furlUrl (scheme : String) (username : Option String) (host : Option String)
    (segments : List String) : String :=
  let pathStr := joinSep "/" (segments.map quoteSegment)
  match host with
  | some h =>
    let userPart := match username with
      | some u => quoteUserinfo u ++ "@"
      | none => ""
    scheme ++ "://" ++ userPart ++ h ++
      (if pathStr = "" then "" else if strStartsWith pathStr "/" then pathStr else "/" ++ pathStr)
  | none => scheme ++ ":" ++ pathStr

/-- A `pathlib.PurePosixPath`: the root string (`""`, `"/"` or the POSIX
special case `"//"`) and the list of non-root components (parsing drops empty
and `"."` components). -/
structure PyPath where
  root : String
  parts : List String
  deriving DecidableEq

/-- `pathlib.PurePosixPath(s)`: leading-slash root (exactly two leading
slashes give root `"//"`, one or three-plus give `"/"`), then the `/`-split
components with empty and `"."` entries dropped. -/
def parsePosix (s : String) : PyPath :=
  let root := if strStartsWith s "//" && !(strStartsWith s "///") then "//"
    else if strStartsWith s "/" then "/" else ""
  ⟨root, (strSplitOnSep s (Char.ofNat 47)).filter (fun seg => !(seg == "" || seg == "."))⟩

/-- `PurePosixPath.name`: the final component, or `""` when there is none. -/
def PyPath.name (p : PyPath) : String :=
  (p.parts.getLast?).getD ""

/-- `PurePosixPath.parent`: drop the final component; the empty and pure-root
paths are their own parent. -/
def PyPath.parent (p : PyPath) : PyPath :=
  if p.parts.isEmpty then p else ⟨p.root, p.parts.dropLast⟩

/-- `str(PurePosixPath)`: root plus `/`-joined components, `"."` when empty. -/
def PyPath.toStr (p : PyPath) : String :=
  if p.root = "" ∧ p.parts = [] then "." else p.root ++ joinSep "/" p.parts

/-- `PurePosixPath.suffix`: the part of `name` from its last dot, when that
dot is neither the first nor the last character; otherwise `""`. -/
def pySuffix (name : String) : String :=
  match name.data.reverse.findIdx? (fun c => c == Char.ofNat 46) with
  | none => ""
  | some j =>
    let i := name.data.length - 1 - j
    if 0 < i ∧ i < name.data.length - 1 then ⟨name.data.drop i⟩ else ""

/-- `PurePosixPath.with_suffix(suffix)`: rejects a suffix containing the
separator, a non-empty suffix not starting with a dot and the bare dot, then
rejects a path with an empty `name`; otherwise replaces the existing suffix
of the final component (or appends when there is none). -/
def PyPath.with_suffix (p : PyPath) (suffix : String) : Except PyError PyPath :=
  if suffix.data.contains (Char.ofNat 47) then
    Except.error (PyError.valueError ("Invalid suffix " ++ suffix))
  else if (suffix ≠ "" ∧ strStartsWith suffix "." = false) ∨ suffix = "." then
    Except.error (PyError.valueError ("Invalid suffix " ++ suffix))
  else if p.name = "" then
    Except.error (PyError.valueError "path has an empty name")
  else
    let old := pySuffix p.name
    let newName := if old = "" then p.name ++ suffix
      else strDropRight p.name old.data.length ++ suffix
    Except.ok ⟨p.root, p.parts.dropLast ++ [newName]⟩

/-- Module constant `GITHUB_DOMAIN` (line 63). -/
def GITHUB_DOMAIN : String := "github.com"

/-- Module constant `GIT_DEFAULT_SCHEME` (line 62). -/
def GIT_DEFAULT_SCHEME : String := "https"

/-- The five members of the `GitScheme` literal type (line 76). -/
def GitSchemes : List String := ["git+file", "git+https", "git+ssh", "https", "ssh"]

/-- The `venv.CORE_VENV_DEPS` override installed by the module (lines 56-57). -/
def CORE_VENV_DEPS : List String :=
  ["build", "darling", "icecream", "ipython", "pip", "pip-tools", "pytest",
   "pytest-asyncio", "rich", "setuptools", "setuptools_scm", "tox", "wheel"]

/-- The `OwnerRepo` dataclass fields (lines 82-86). -/
structure OwnerRepo where
  owner : String
  repo : String
  deriving DecidableEq

/-- `OwnerRepo(owner, repo)` including `__post_init__` (lines 88-90): raises
`ValueError` when either field is empty (Python string truthiness). -/
def OwnerRepo.make (owner repo : String) : Except PyError OwnerRepo :=
  if owner = "" ∨ repo = "" then
    Except.error (PyError.valueError ("Invalid GitHub URL: " ++ owner ++ "/" ++ repo))
  else
    Except.ok ⟨owner, repo⟩

/-- `OwnerRepo.from_url` (lines 92-107) on a string argument.  The Python
body computes `furl(url)`, tests membership `"@" in url` on that furl object,
assigns `owner = url.username` only in the then-branch (`pass` otherwise) and
then executes `return cls(owner=owner, repo=repo)` where the local `repo` is
never assigned anywhere in the function.  Every execution therefore raises
before an `OwnerRepo` can be produced: `NameError` for `repo` on the
then-branch and `UnboundLocalError` for `owner` on the else-branch (the
membership test on a non-container furl object would itself already raise a
`TypeError`; the model generously reads it as a substring test on the URL
text, which only makes the function more defined). -/
def OwnerRepo.from_url (url : String) : Except PyError OwnerRepo :=
  if strContains url "@" then
    Except.error (PyError.nameError "name repo is not defined")
  else
    Except.error (PyError.unboundLocalError "local variable owner referenced before assignment")

/-- `OwnerRepo.from_path` (lines 109-114):
`cls(owner=path.parent.name, repo=path.name)`. -/
def OwnerRepo.from_path (p : PyPath) : Except PyError OwnerRepo :=
  OwnerRepo.make p.parent.name p.name

/-- `OwnerRepo.url` (lines 116-158).  The furl keyword arguments start as
`scheme`, `host=GITHUB_DOMAIN`, `path=[owner, repo]`; for `"git+file"` a
non-absolute repo raises `ValueError`, otherwise the path becomes the single
segment `str(Path(repo).absolute().with_suffix(".git"))` and the host is
removed (`absolute()` returns the path unchanged because the branch has
checked it is absolute); a scheme containing `"ssh"` adds `username="git"`.
The result is the serialised furl. -/
def OwnerRepo.url : OwnerRepo → String → Except PyError String
  | ⟨owner, repo⟩, scheme =>
    if scheme = "git+file" then
      if strStartsWith repo "/" = false then
        Except.error (PyError.valueError
          ("Repo must be an absolute file for " ++ scheme ++ ": " ++ repo))
      else
        (PyPath.with_suffix (parsePosix repo) ".git").map
          (fun p => furlUrl scheme none none [p.toStr])
    else if strContains scheme "ssh" then
      Except.ok (furlUrl scheme (some "git") (some GITHUB_DOMAIN) [owner, repo])
    else
      Except.ok (furlUrl scheme none (some GITHUB_DOMAIN) [owner, repo])

/-- Python `sorted` on strings: stable sort by `<=`; since `<=` on `String`
is a linear order, the sorted permutation is unique and insertion sort
produces exactly the Python output. -/
def pySorted (l : List String) : List String :=
  List.insertionSort (fun a b => a ≤ b) l

/-- `ProjectPy.__post_init__` extras computation (lines 498-499):
`tuple(sorted({dep for extra in options.extras_require.values() for dep in
extra}))` — the set comprehension deduplicates, `sorted` then enumerates the
distinct elements in ascending order. -/
def ProjectPy.extras_requireOf (extras_require : List (List String)) : List String :=
  pySorted extras_require.flatten.dedup

/-- `ProjectPy.__post_init__` requirements computation (line 503):
`tuple(sorted(install_requires + extras_require + venv.CORE_VENV_DEPS))`. -/
def ProjectPy.requirementsOf (install_requires : List String)
    (extras_require : List (List String)) : List String :=
  pySorted (install_requires ++ ProjectPy.extras_requireOf extras_require ++ CORE_VENV_DEPS)

/-- The two venv calls `EnvBuilder.__post_init__` can dispatch to. -/
inductive EnvCall where
  | ensure_directories : EnvCall
  | create : EnvCall
  deriving DecidableEq

/-- `EnvBuilder.__post_init__` dispatch (lines 232-237) together with its
effect on the target directory.  Input: the `env_dir` argument (`none` for
`None`, and `""` is falsy like `None`) and whether the directory currently
exists.  Output: the venv call made, if any, and whether the directory exists
afterwards (`venv.EnvBuilder.ensure_directories` creates any missing
directories of an existing tree and never removes it; `create` builds the
tree). -/
def EnvBuilder.post_init (env_dir : Option String) (dirExists : Bool) :
    Option EnvCall × Bool :=
  match env_dir with
  | none => (none, dirExists)
  | some d =>
    if d = "" then (none, dirExists)
    else if dirExists then (some EnvCall.ensure_directories, true)
    else (some EnvCall.create, true)

/-- Class constant `ProjectPy.pip_install_options` (line 476). -/
def pip_install_options : List String :=
  ["-m", "pip", "install", "--quiet", "--no-warn-script-location"]

/-- Class constant `ProjectPy.pip_upgrade_options` (line 477). -/
def pip_upgrade_options : List String :=
  pip_install_options ++ ["--upgrade"]

/-- The executable chosen by `pip_install` (line 520). -/
def pipExecutable (python_exe_site python_exe_venv : String) (site : Bool) : String :=
  if site then python_exe_site else python_exe_venv

/-- The first `check_call` command of `pip_install` (line 521). -/
def pipCmd1 (python_exe_site python_exe_venv : String) (site : Bool) : List String :=
  pipExecutable python_exe_site python_exe_venv site :: (pip_upgrade_options ++ ["pip", "wheel"])

/-- The second `check_call` command of `pip_install` (lines 522-523); an
empty `args` tuple is falsy, so the requirements are installed instead. -/
def pipCmd2 (python_exe_site python_exe_venv : String)
    (requirements args : List String) (site upgrade : Bool) : List String :=
  pipExecutable python_exe_site python_exe_venv site ::
    ((if upgrade then pip_upgrade_options else pip_install_options) ++
      (if args.isEmpty then requirements else args))

/-- `ProjectPy.pip_install` (lines 508-523) against an external world given
by the exit code each spawned command returns.  `check_call` raises
`CalledProcessError` on the first non-zero exit, which propagates out of
`pip_install`; with both exits zero the method returns `None`. -/
def ProjectPy.pip_install (python_exe_site python_exe_venv : String)
    (requirements args : List String) (site upgrade : Bool)
    (exitCode : List String → Int) : Except PyError Unit :=
  if exitCode (pipCmd1 python_exe_site python_exe_venv site) = 0 then
    if exitCode (pipCmd2 python_exe_site python_exe_venv requirements args site upgrade) = 0 then
      Except.ok ()
    else
      Except.error (PyError.calledProcessError
        (pipCmd2 python_exe_site python_exe_venv requirements args site upgrade)
        (exitCode (pipCmd2 python_exe_site python_exe_venv requirements args site upgrade)))
  else
    Except.error (PyError.calledProcessError
      (pipCmd1 python_exe_site python_exe_venv site)
      (exitCode (pipCmd1 python_exe_site python_exe_venv site)))

/-!
Theorems settling the claims.
-/

/-- C1.  The claim states that `OwnerRepo.url("ssh")` yields the host-colon
form `git@github.com:owner/repo.git`.  The code instead serialises a furl
with scheme `ssh`, username `git`, host `github.com` and path
`owner/repo`; at the failing input `OwnerRepo("cpython", "cpython")` it
returns `ssh://git@github.com/cpython/cpython`, which differs from the form
the claim (and the doctest on lines 143-144 of the source) promises: the
scheme prefix is present, the host is followed by `/` rather than `:` and no
`.git` suffix is appended. -/
theorem url_ssh_actual_output :
    OwnerRepo.url ⟨"cpython", "cpython"⟩ "ssh" =
      Except.ok "ssh://git@github.com/cpython/cpython" ∧
    ("ssh://git@github.com/cpython/cpython" : String) ≠
      "git@github.com:cpython/cpython.git" :=
  ⟨rfl, by decide⟩

/-- C2 counterexample.  With `install_requires = ["pip"]` and no extras the
combined requirements tuple contains `pip` twice (once from
`install_requires`, once from `CORE_VENV_DEPS`): the combined output is not
deduplicated, refuting the claim as stated. -/
theorem requirements_duplicate_counterexample :
    ¬ (ProjectPy.requirementsOf ["pip"] []).Nodup := by
  intro hnd
  have hperm : List.Perm (ProjectPy.requirementsOf ["pip"] [])
      (["pip"] ++ ProjectPy.extras_requireOf [] ++ CORE_VENV_DEPS) := by
    unfold ProjectPy.requirementsOf pySorted
    exact List.perm_insertionSort _ _
  exact absurd (hperm.nodup_iff.mp hnd) (by decide)

/-- C2 amended.  The combined requirements tuple built by
`ProjectPy.__post_init__` is sorted in ascending order, and the
`extras_require` component alone is deduplicated and sorted; the combined
tuple is not deduplicated (duplicates survive whenever `install_requires`,
the extras and `CORE_VENV_DEPS` overlap). -/
theorem requirements_sorted_and_extras_dedup (install_requires : List String)
    (extras_require : List (List String)) :
    (ProjectPy.requirementsOf install_requires extras_require).Sorted (fun a b => a ≤ b) ∧
    (ProjectPy.extras_requireOf extras_require).Nodup ∧
    (ProjectPy.extras_requireOf extras_require).Sorted (fun a b => a ≤ b) := by
  refine ⟨?_, ?_, ?_⟩
  · unfold ProjectPy.requirementsOf pySorted
    exact List.sorted_insertionSort _ _
  · unfold ProjectPy.extras_requireOf pySorted
    exact ((List.perm_insertionSort _ _).nodup_iff).mpr (List.nodup_dedup _)
  · unfold ProjectPy.extras_requireOf pySorted
    exact List.sorted_insertionSort _ _

/-- C3.  The claim states that `OwnerRepo.from_url` successfully parses a
GitHub remote URL into owner and repo components.  The function body never
assigns the local variable `repo` (and assigns `owner` only on the `"@"`
branch), so every call raises before an `OwnerRepo` can be returned: the
operation fails on all inputs. -/
theorem from_url_never_parses :
    ∀ url : String, isErrB (OwnerRepo.from_url url) = true := by
  intro url
  unfold OwnerRepo.from_url
  split <;> rfl

/-- C4.  Environment provisioning is idempotent: with `env_dir` set to an
existing directory, `EnvBuilder.__post_init__` only calls
`ensure_directories` (never `create`); the directory still exists afterwards,
so a second construction again only calls `ensure_directories`; `create` is
called exactly when the directory does not exist. -/
theorem env_builder_idempotent (d : String) (hd : d ≠ "") :
    (EnvBuilder.post_init (some d) true).1 = some EnvCall.ensure_directories ∧
    (EnvBuilder.post_init (some d) (EnvBuilder.post_init (some d) true).2).1 =
      some EnvCall.ensure_directories ∧
    (∀ e : Bool, (EnvBuilder.post_init (some d) e).1 = some EnvCall.create ↔ e = false) := by
  refine ⟨?_, ?_, ?_⟩
  · simp [EnvBuilder.post_init, hd]
  · simp [EnvBuilder.post_init, hd]
  · intro e
    cases e <;> simp [EnvBuilder.post_init, hd]

/-- C4 witness: the theorem applied to the concrete directory `venv`. -/
theorem env_builder_idempotent_witness :
    (EnvBuilder.post_init (some "venv") true).1 = some EnvCall.ensure_directories :=
  (env_builder_idempotent "venv" (by decide)).1

/-- C5.  The claim states that `url("git+file")` on an absolute repo path
yields `file:///<path>.git`, the original path with `.git` appended.  At the
failing input `repo = "/tmp/cpython"` the code returns
`git+file:%2Ftmp%2Fcpython.git`: the scheme is `git+file`, furl renders the
whole path as one percent-quoted segment (no `//` and every `/` becomes
`%2F`), so the result is neither the claimed form nor the doctest output
`git+file:///tmp/cpython.git` (lines 137-138 of the source); moreover
`with_suffix` replaces an existing suffix rather than appending, as the
second evaluation at `repo = "/tmp/a.b"` shows. -/
theorem url_git_file_actual_output :
    OwnerRepo.url ⟨"cpython", "/tmp/cpython"⟩ "git+file" =
      Except.ok "git+file:%2Ftmp%2Fcpython.git" ∧
    ("git+file:%2Ftmp%2Fcpython.git" : String) ≠ "file:///tmp/cpython.git" ∧
    ("git+file:%2Ftmp%2Fcpython.git" : String) ≠ "git+file:///tmp/cpython.git" ∧
    OwnerRepo.url ⟨"cpython", "/tmp/a.b"⟩ "git+file" =
      Except.ok "git+file:%2Ftmp%2Fa.git" :=
  ⟨rfl, by decide, by decide, rfl⟩

/-- C6.  Constructing an `OwnerRepo` raises `ValueError` if and only if the
owner field or the repo field is empty; with both non-empty the construction
succeeds and stores the two fields unchanged. -/
theorem owner_repo_validation (o r : String) :
    (o ≠ "" → r ≠ "" → OwnerRepo.make o r = Except.ok ⟨o, r⟩) ∧
    ((o = "" ∨ r = "") →
      OwnerRepo.make o r =
        Except.error (PyError.valueError ("Invalid GitHub URL: " ++ o ++ "/" ++ r))) ∧
    (∀ e, OwnerRepo.make o r = Except.error e → o = "" ∨ r = "") := by
  refine ⟨?_, ?_, ?_⟩
  · intro ho hr
    unfold OwnerRepo.make
    rw [if_neg (not_or.mpr ⟨ho, hr⟩)]
  · intro h
    unfold OwnerRepo.make
    rw [if_pos h]
  · intro e he
    by_cases h : o = "" ∨ r = ""
    · exact h
    · unfold OwnerRepo.make at he
      rw [if_neg h] at he
      exact absurd he (by simp)

/-- C6 witness: the theorem applied to the concrete pair
`("cpython", "cpython")`. -/
theorem owner_repo_validation_witness :
    OwnerRepo.make "cpython" "cpython" = Except.ok ⟨"cpython", "cpython"⟩ :=
  (owner_repo_validation "cpython" "cpython").1 (by decide) (by decide)

/-- C7 counterexample.  The claim states `url("git+file")` raises exactly
when the repo does not start with `/`.  With `repo = "/"` the repo does start
with `/`, yet the call raises `ValueError` (from `with_suffix` on a path with
an empty final component), refuting the stated equivalence. -/
theorem url_root_repo_counterexample :
    isErrB (OwnerRepo.url ⟨"cpython", "/"⟩ "git+file") = true ∧
      strStartsWith "/" "/" = true :=
  ⟨rfl, rfl⟩

/-- C7 amended.  `OwnerRepo.url` raises `ValueError` if and only if the
scheme is `git+file` and either the repo does not start with `/` or the path
parsed from the repo has an empty final component (the repo consists only of
slashes and `.` components, e.g. `/`); for every other scheme no error is
raised. -/
theorem url_value_error_iff (o : OwnerRepo) (s : String) :
    isErrB (OwnerRepo.url o s) = true ↔
      (s = "git+file" ∧ (strStartsWith o.repo "/" = false ∨ (parsePosix o.repo).name = "")) := by
  obtain ⟨ow, re⟩ := o
  by_cases hs : s = "git+file"
  · subst hs
    cases hsw : strStartsWith re "/" with
    | false =>
      simp [OwnerRepo.url, hsw, isErrB]
    | true =>
      have hc1 : ((".git" : String).data.contains (Char.ofNat 47)) = false := by decide
      have hc2 : ¬((((".git" : String) ≠ "") ∧ (strStartsWith ".git" "." = false)) ∨
          ((".git" : String) = ".")) := by decide
      have hst : strStartsWith ".git" "." = true := by decide
      by_cases hn : (parsePosix re).name = ""
      · simp [OwnerRepo.url, hsw, PyPath.with_suffix, hc1, hc2, hst, hn, isErrB, Except.map]
      · simp [OwnerRepo.url, hsw, PyPath.with_suffix, hc1, hc2, hst, hn, isErrB, Except.map]
  · simp only [OwnerRepo.url]
    rw [if_neg hs]
    constructor
    · intro h
      exfalso
      revert h
      split <;> simp [isErrB]
    · intro h
      exact absurd h.1 hs

/-- C8.  URL derivation is deterministic: for each of the five supported
schemes, the result of `OwnerRepo.url` is a function of the owner and repo
fields alone, so two invocations with equal fields and equal scheme produce
equal results (the model reads no external state). -/
theorem url_deterministic (o₁ o₂ : OwnerRepo) (s : String) (_hs : s ∈ GitSchemes)
    (how : o₁.owner = o₂.owner) (hre : o₁.repo = o₂.repo) :
    OwnerRepo.url o₁ s = OwnerRepo.url o₂ s := by
  obtain ⟨a, b⟩ := o₁
  obtain ⟨c, d⟩ := o₂
  have h1 : a = c := how
  have h2 : b = d := hre
  subst h1
  subst h2
  rfl

/-- C8 witness: the theorem applied at the concrete pair
`("cpython", "cpython")` under the `https` scheme. -/
theorem url_deterministic_witness :
    OwnerRepo.url ⟨"cpython", "cpython"⟩ "https" =
      OwnerRepo.url ⟨"cpython", "cpython"⟩ "https" :=
  url_deterministic ⟨"cpython", "cpython"⟩ ⟨"cpython", "cpython"⟩ "https"
    (by decide) rfl rfl

/-- C9.  `ProjectPy.pip_install` returns normally when every invoked command
exits zero; when the first invoked command exits non-zero the call propagates
exactly that failure as an immediate `CalledProcessError` for that command
and exit code; when the first succeeds and the second exits non-zero the call
propagates exactly the second failure; and any returned error carries a
genuinely non-zero exit of the command it names, with no retry. -/
theorem pip_install_exit_propagation (python_exe_site python_exe_venv : String)
    (requirements args : List String) (site upgrade : Bool) (exitCode : List String → Int) :
    ((∀ c, exitCode c = 0) →
      ProjectPy.pip_install python_exe_site python_exe_venv requirements args site upgrade
        exitCode = Except.ok ()) ∧
    (exitCode (pipCmd1 python_exe_site python_exe_venv site) ≠ 0 →
      ProjectPy.pip_install python_exe_site python_exe_venv requirements args site upgrade
        exitCode = Except.error (PyError.calledProcessError
          (pipCmd1 python_exe_site python_exe_venv site)
          (exitCode (pipCmd1 python_exe_site python_exe_venv site)))) ∧
    (exitCode (pipCmd1 python_exe_site python_exe_venv site) = 0 →
      exitCode (pipCmd2 python_exe_site python_exe_venv requirements args site upgrade) ≠ 0 →
      ProjectPy.pip_install python_exe_site python_exe_venv requirements args site upgrade
        exitCode = Except.error (PyError.calledProcessError
          (pipCmd2 python_exe_site python_exe_venv requirements args site upgrade)
          (exitCode (pipCmd2 python_exe_site python_exe_venv requirements args site upgrade)))) ∧
    (∀ c code,
      ProjectPy.pip_install python_exe_site python_exe_venv requirements args site upgrade
        exitCode = Except.error (PyError.calledProcessError c code) →
      exitCode c = code ∧ code ≠ 0) := by
  refine ⟨?_, ?_, ?_, ?_⟩
  · intro h
    simp [ProjectPy.pip_install, h]
  · intro h1
    unfold ProjectPy.pip_install
    rw [if_neg h1]
  · intro h1 h2
    unfold ProjectPy.pip_install
    rw [if_pos h1, if_neg h2]
  · intro c code h
    unfold ProjectPy.pip_install at h
    by_cases h1 : exitCode (pipCmd1 python_exe_site python_exe_venv site) = 0
    · rw [if_pos h1] at h
      by_cases h2 :
          exitCode (pipCmd2 python_exe_site python_exe_venv requirements args site upgrade) = 0
      · rw [if_pos h2] at h
        exact absurd h (by simp)
      · rw [if_neg h2] at h
        simp only [Except.error.injEq, PyError.calledProcessError.injEq] at h
        obtain ⟨hcmd, hcode⟩ := h
        subst hcmd
        exact ⟨hcode, hcode ▸ h2⟩
    · rw [if_neg h1] at h
      simp only [Except.error.injEq, PyError.calledProcessError.injEq] at h
      obtain ⟨hcmd, hcode⟩ := h
      subst hcmd
      exact ⟨hcode, hcode ▸ h1⟩

/-- C9 witness: with every command exiting zero the concrete call returns
normally, and with every command exiting 1 the concrete call returns the
`CalledProcessError` of the first invoked command with exit code 1. -/
theorem pip_install_exit_propagation_witness :
    ProjectPy.pip_install "/usr/bin/python3" "/repo/venv/bin/python3" ["build"] []
      false false (fun _ => 0) = Except.ok () ∧
    ProjectPy.pip_install "/usr/bin/python3" "/repo/venv/bin/python3" ["build"] []
      false false (fun _ => 1) = Except.error (PyError.calledProcessError
        (pipCmd1 "/usr/bin/python3" "/repo/venv/bin/python3" false) 1) :=
  ⟨(pip_install_exit_propagation "/usr/bin/python3" "/repo/venv/bin/python3" ["build"] []
      false false (fun _ => 0)).1 (fun _ => rfl),
   (pip_install_exit_propagation "/usr/bin/python3" "/repo/venv/bin/python3" ["build"] []
      false false (fun _ => 1)).2.1 (by decide)⟩

/-- C10.  `OwnerRepo.from_path` returns an `OwnerRepo` whose owner is the
name of the parent directory and whose repo is the final component, when both
are non-empty; when either is empty it raises `ValueError` through the
`OwnerRepo` constructor validation. -/
theorem from_path_components (p : PyPath) :
    (p.name ≠ "" → p.parent.name ≠ "" →
      OwnerRepo.from_path p = Except.ok ⟨p.parent.name, p.name⟩) ∧
    ((p.name = "" ∨ p.parent.name = "") →
      ∃ m, OwnerRepo.from_path p = Except.error (PyError.valueError m)) := by
  constructor
  · intro h1 h2
    unfold OwnerRepo.from_path OwnerRepo.make
    rw [if_neg (not_or.mpr ⟨h2, h1⟩)]
  · intro h
    refine ⟨"Invalid GitHub URL: " ++ p.parent.name ++ "/" ++ p.name, ?_⟩
    unfold OwnerRepo.from_path OwnerRepo.make
    rw [if_pos h.symm]

/-- C10 witness: the theorem applied at the concrete path `octocat/hello`. -/
theorem from_path_components_witness :
    OwnerRepo.from_path ⟨"", ["octocat", "hello"]⟩ = Except.ok ⟨"octocat", "hello"⟩ :=
  (from_path_components ⟨"", ["octocat", "hello"]⟩).1 (by decide) (by decide)
